import Mathlib

/-!
Verification of the OM-Extraction download pipeline.

Shallow embedding of the core logic of `src/om_multi_agent.py` and
`src/om_flyer_downloader.py`: the token tracker, the scout agent's count
extraction, the strategy decision, the download event handlers, the
step-driver stop logic, the per-URL success determination, the batch loop
and the CLI exit behaviour.  Machine integers are modelled as `Nat`/`Int`
(no overflow is relevant: Python integers are unbounded); dollar costs are
modelled as `Rat` (the claims checked here only concern sums that the code
computes literally, so the number representation is immaterial).
-/

namespace OMX

/-! ## TokenTracker (om_multi_agent.py lines 26-115) -/

/-- One row of the per-kind token counters (`{"input": .., "output": .., "vision": ..}`). -/
structure TokenCounts where
  input : Nat
  output : Nat
  vision : Nat
deriving DecidableEq

/-- Per-1M-token prices for one model (`TokenTracker.pricing` values). -/
structure Pricing where
  input : Rat
  output : Rat
  vision : Rat

/-- `self.pricing.get(self.model_name, self.pricing["gpt-4o"])`:
the two hard-coded models, anything else falls back to gpt-4o. -/
def pricingFor (model : String) : Pricing :=
  if model = "gpt-4o" then ⟨5/2, 10, 5/2⟩
  else if model = "gpt-4o-mini" then ⟨3/20, 3/5, 3/20⟩
  else ⟨5/2, 10, 5/2⟩

/-- State of `TokenTracker` (scout/main/total counters and costs). -/
structure TokenTracker where
  scout_tokens : TokenCounts
  main_tokens : TokenCounts
  total_tokens : TokenCounts
  scout_cost : Rat
  main_cost : Rat
  total_cost : Rat
  model_name : String

/-- `TokenTracker.reset`. -/
def TokenTracker.reset : TokenTracker :=
  ⟨⟨0, 0, 0⟩, ⟨0, 0, 0⟩, ⟨0, 0, 0⟩, 0, 0, 0, "gpt-4o"⟩

/-- Cost of one counter row: `(tokens / 1_000_000) * price`, summed over the three kinds. -/
def rowCost (t : TokenCounts) (p : Pricing) : Rat :=
  ((t.input : Rat) / 1000000) * p.input
    + ((t.output : Rat) / 1000000) * p.output
    + ((t.vision : Rat) / 1000000) * p.vision

/-- `TokenTracker._update_totals`. -/
def TokenTracker.update_totals (t : TokenTracker) : TokenTracker :=
  let p := pricingFor t.model_name
  let sc := rowCost t.scout_tokens p
  let mc := rowCost t.main_tokens p
  { t with
    total_tokens := ⟨t.scout_tokens.input + t.main_tokens.input,
                     t.scout_tokens.output + t.main_tokens.output,
                     t.scout_tokens.vision + t.main_tokens.vision⟩,
    scout_cost := sc,
    main_cost := mc,
    total_cost := sc + mc }

/-- `TokenTracker.add_scout_usage`. -/
def TokenTracker.add_scout_usage (t : TokenTracker) (i o v : Nat) : TokenTracker :=
  TokenTracker.update_totals
    { t with scout_tokens := ⟨t.scout_tokens.input + i, t.scout_tokens.output + o,
                              t.scout_tokens.vision + v⟩ }

/-- `TokenTracker.add_main_usage`. -/
def TokenTracker.add_main_usage (t : TokenTracker) (i o v : Nat) : TokenTracker :=
  TokenTracker.update_totals
    { t with main_tokens := ⟨t.main_tokens.input + i, t.main_tokens.output + o,
                             t.main_tokens.vision + v⟩ }

/-- A call to one of the two usage-recording methods. -/
inductive TTOp
  | addScout (i o v : Nat)
  | addMain (i o v : Nat)

/-- Apply one recorded call. -/
def applyTTOp (t : TokenTracker) : TTOp → TokenTracker
  | .addScout i o v => t.add_scout_usage i o v
  | .addMain i o v => t.add_main_usage i o v

/-- Apply a sequence of calls in order. -/
def applyTTOps (t : TokenTracker) (ops : List TTOp) : TokenTracker :=
  ops.foldl applyTTOp t

/-- The totals invariant of the tracker: totals are the component-wise sums. -/
def totalsInvariant (t : TokenTracker) : Prop :=
  t.total_tokens.input = t.scout_tokens.input + t.main_tokens.input
  ∧ t.total_tokens.output = t.scout_tokens.output + t.main_tokens.output
  ∧ t.total_tokens.vision = t.scout_tokens.vision + t.main_tokens.vision
  ∧ t.total_cost = t.scout_cost + t.main_cost

/-! ## Strategy selection (om_multi_agent.py lines 908-929)

`download_om_flyer` branches on the scouted count: `if om_button_count > 0`
it sets `result["strategy_used"] = "single"` (printing a warning when the
count exceeds 1 and proceeding with the first button), and in the `else`
branch (`om_button_count == 0`) it sets `"skip"` and returns early.  No
code path ever selects a batch strategy. -/

/-- The strategies named by the spec.  `batch` never occurs in the code of
`om_multi_agent.py`; it is included so that its absence can be stated. -/
inductive Strategy
  | skip
  | single
  | batch (expected : Int)
deriving DecidableEq

/-- The strategy decision of `download_om_flyer`: `if om_button_count > 0`
then the single workflow, else skip.  The count is an `Int` because the
scout's fallback extraction can in principle yield a negative number. -/
def selectStrategy (count : Int) : Strategy :=
  if 0 < count then Strategy.single else Strategy.skip

/-! ## Scout count extraction (om_multi_agent.py lines 513-561)

`OMScoutAgent.scout_page` runs the scout agent and then scans the action
history: first it looks for a `done` action whose text, stripped, is purely
numeric (`str.isdigit`) and takes it as the count; if the count is still 0
after that pass, a fallback pass scans the keys
`result, output, response, answer, value` of each action for a numeric
value or a digit string, breaking out of the key loop at the first numeric
value found (even when it is not positive) and out of the action loop only
when the count is positive.  The count is initialised to 0, so a history
with no numeric answer yields 0.  Only when the whole scout (browser
session, agent run) raises does the outer handler return 1. -/

/-- A value stored under one of the fallback result keys of an action
dictionary: a number (Python `int`/`float`, pre-truncated to an integer
here) or a string. -/
inductive ScoutVal
  | num (n : Int)
  | str (s : String)
deriving DecidableEq

/-- One entry of `scout_agent.state.history.model_actions()`:
the optional `done` text and the other key/value fields.  A key that is
absent or maps to Python `None` is simply not in the list. -/
structure ScoutAction where
  done : Option String
  fields : List (String × ScoutVal)
deriving DecidableEq

/-- Python `str.strip()`: drop whitespace from both ends (working on the
character list of the string). -/
def pyStrip (s : String) : List Char :=
  ((s.data.dropWhile Char.isWhitespace).reverse.dropWhile Char.isWhitespace).reverse

/-- Python `str.isdigit` restricted to ASCII: non-empty and all digits. -/
def pyIsDigit (cs : List Char) : Bool :=
  !cs.isEmpty && cs.all Char.isDigit

/-- Python `int(...)` on a purely-numeric digit string. -/
def digitsToInt (cs : List Char) : Int :=
  ((cs.foldl (fun n c => 10 * n + (c.toNat - 48)) 0 : Nat) : Int)

/-- The fallback result keys, in the order the code checks them. -/
def resultKeys : List String :=
  ["result", "output", "response", "answer", "value"]

/-- Lookup of one key in an action's fields. -/
def lookupField (a : ScoutAction) (k : String) : Option ScoutVal :=
  (a.fields.find? (fun p => p.1 = k)).map Prod.snd

/-- The integer a stored value converts to in the fallback pass:
a numeric value converts directly (`int(result_value)`), a string only when
its stripped form is purely numeric. -/
def numericOf : ScoutVal → Option Int
  | .num n => some n
  | .str s => if pyIsDigit (pyStrip s) then some (digitsToInt (pyStrip s)) else none

/-- The first key of `resultKeys` present in the action with a convertible
value; the inner loop breaks at the first assignment. -/
def keyPass (a : ScoutAction) : Option Int :=
  (resultKeys.filterMap (fun k => (lookupField a k).bind numericOf)).head?

/-- First pass of the extraction: the first `done` action whose stripped
text is purely numeric gives the count (the loop breaks there); otherwise
the count stays 0. -/
def donePass : List ScoutAction → Int
  | [] => 0
  | a :: rest =>
    match a.done with
    | some t => if pyIsDigit (pyStrip t) then digitsToInt (pyStrip t) else donePass rest
    | none => donePass rest

/-- Fallback pass: walk the actions with the running count; an action with
a convertible key overwrites the count and the loop stops only when the
count is positive. -/
def fallbackLoop : List ScoutAction → Int → Int
  | [], c => c
  | a :: rest, c =>
    match keyPass a with
    | some n => if 0 < n then n else fallbackLoop rest n
    | none => fallbackLoop rest c

/-- The whole extraction of `scout_page` (lines 513-544): done pass, then,
if the count is still 0, the fallback pass starting from 0. -/
def extractCount (acts : List ScoutAction) : Int :=
  let c := donePass acts
  if c = 0 then fallbackLoop acts 0 else c

/-- How one invocation of `scout_page` goes.  `openFails` is a failure
before the scout browser session exists (its creation raises),
`runRaises` a failure of `scout_agent.run` after the session was created,
`extractionRaises` an exception inside the history-scanning block (caught
at line 546, leaving the count at 0), and `completes` a run whose history
is scanned normally. -/
inductive ScoutRun
  | openFails
  | runRaises
  | extractionRaises
  | completes (actions : List ScoutAction)
deriving DecidableEq

/-- Observable outcome of `scout_page`: the returned count, whether the
scout's isolated browser session was opened, and whether it was closed
before returning. -/
structure ScoutResult where
  count : Int
  contextOpened : Bool
  contextClosed : Bool
deriving DecidableEq

/-- `OMScoutAgent.scout_page`.  The `close` at lines 550-553 is only
reached when the run and the extraction block finished (the extraction
block catches its own exceptions); the outer exception handler at
line 558 returns 1 without closing anything. -/
def scout_page : ScoutRun → ScoutResult
  | .openFails => ⟨1, false, false⟩
  | .runRaises => ⟨1, true, false⟩
  | .extractionRaises => ⟨0, true, true⟩
  | .completes acts => ⟨extractCount acts, true, true⟩

/-- An action contributes no numeric signal to the extraction: its `done`
text (if any) is not purely numeric and no fallback key converts. -/
def numericFree (a : ScoutAction) : Bool :=
  (match a.done with
   | some t => !pyIsDigit (pyStrip t)
   | none => true) && (keyPass a).isNone

/-! ## The multi-agent download handler (om_multi_agent.py lines 729-774)

`setup_download_handlers.handle_download` saves the incoming download under
its suggested filename in the domain folder, retrying `save_as` up to three
times; on success it appends the path to `self.downloaded_files`; when all
three attempts fail it writes a text placeholder file at the same path.
In every exit path, including the outer `except`, it sets
`self.should_stop = True`.  There is no deduplication of any kind. -/

/-- A browser download event as seen by the handler, together with the
environment facts the handler's control flow depends on: the outcome of
each of the three `save_as` attempts, and whether the handler body raises
(e.g. while touching the filesystem). -/
structure DownloadEventE where
  suggested : String
  save1 : Bool
  save2 : Bool
  save3 : Bool
  handlerRaises : Bool
deriving DecidableEq

/-- The downloader state the handler mutates: `self.downloaded_files`,
`self.should_stop`, plus the placeholder files it writes to disk. -/
structure OMAState where
  downloadedFiles : List String
  shouldStop : Bool
  placeholders : List String
deriving DecidableEq

/-- `handle_download` of om_multi_agent.py.  If the body raises, the outer
handler only sets the stop flag; otherwise the first successful save
appends the path once, and three failures write the placeholder; either
way the stop flag is set at the end. -/
def handle_download (s : OMAState) (ev : DownloadEventE) : OMAState :=
  if ev.handlerRaises then
    { s with shouldStop := true }
  else if ev.save1 || ev.save2 || ev.save3 then
    { s with downloadedFiles := s.downloadedFiles ++ [ev.suggested], shouldStop := true }
  else
    { s with placeholders := s.placeholders ++ [ev.suggested], shouldStop := true }

/-! ## The single-download step driver
(om_multi_agent.py lines 782-869 and 1049-1064)

The step loop itself lives in the external `browser_use` library
(`Agent.run` with the `on_step_start` hook); it is an external collaborator
of this repository.  Modelled from the spec: §4.3/§5 fix that the driver
issues exactly one planner call per step and that the stop predicate runs
at each step boundary, strictly before the next step's planner call.  The
stop predicate itself is `monitor_downloads` from the source: it stops
(by raising `StopIteration`, which `_download_single_om` catches) when
`len(self.downloaded_files) > 0 or self.should_stop`; the per-step effects
on that state come from `handle_download` above. -/

/-- Driver state: the downloader's shared sink state plus the counters of
planner calls issued and steps executed. -/
structure DriverState where
  sink : OMAState
  plannerCalls : Nat
  stepsExecuted : Nat
deriving DecidableEq

/-- The stop condition of `monitor_downloads` (lines 833-836). -/
def monitorStops (s : DriverState) : Bool :=
  !s.sink.downloadedFiles.isEmpty || s.sink.shouldStop

/-- One executed step: one planner call, then the download events the step
triggered are delivered to `handle_download`. -/
def execStep (evs : List DownloadEventE) (s : DriverState) : DriverState :=
  { sink := evs.foldl handle_download s.sink,
    plannerCalls := s.plannerCalls + 1,
    stepsExecuted := s.stepsExecuted + 1 }

/-- The step loop: the remaining step budget is the list of per-step event
batches; at each boundary `monitor_downloads` runs first and a raised stop
ends the run with the state frozen. -/
def runDriver : List (List DownloadEventE) → DriverState → DriverState
  | [], s => s
  | evs :: rest, s => if monitorStops s then s else runDriver rest (execStep evs s)

/-! ## The flyer-downloader handler (om_flyer_downloader.py lines 837-869)

This variant deduplicates: the cleaned suggested filename is looked up in
`self.downloaded_filenames` and a duplicate download returns before saving
anything.  On a fresh filename the download is saved and both the file
list and the filename set are extended; if `save_as` raises, the handler's
`except` swallows the error and nothing is recorded. -/

/-- The sink state of om_flyer_downloader.py: `self.downloaded_files`
(paths, represented by their cleaned filename, the domain directory being
fixed for the run) and `self.downloaded_filenames`. -/
structure OFDSink where
  downloaded_files : List String
  downloaded_filenames : List String
deriving DecidableEq

/-- `filename.replace("/", "-").replace("\\", "-")`: both replaced
patterns are single characters, so the two replacements are two character
maps. -/
def cleanFilename (filename : String) : String :=
  { data := (filename.data.map (fun c => if c = '/' then '-' else c)).map
      (fun c => if c = '\x5c' then '-' else c) }

/-- `handle_download` of om_flyer_downloader.py.  `suggested` is the
event's suggested filename, with `""` standing for Python `None` (the code
uses `download.suggested_filename or f"download_{int(time.time())}.pdf"`,
so both `None` and the empty string fall back to the timestamp name,
passed here as `now`).  `saveOk` tells whether `save_as` succeeded. -/
def ofd_handle_download (s : OFDSink) (suggested : String) (now : Nat) (saveOk : Bool) :
    OFDSink :=
  let filename := if suggested = "" then "download_" ++ toString now ++ ".pdf" else suggested
  let clean := cleanFilename filename
  if s.downloaded_filenames.contains clean then s
  else if saveOk then
    ⟨s.downloaded_files ++ [clean], s.downloaded_filenames ++ [clean]⟩
  else s

/-! ## Per-URL success determination

om_flyer_downloader.py lines 1014-1038: success iff the handler recorded a
file, or otherwise iff the domain folder contains ANY pdf (the
`glob("*.pdf")` fallback, which also picks up files that existed before
the run — this workflow takes no snapshot of pre-existing files).

om_multi_agent.py lines 899-957: `download_om_flyer` snapshots
`existing_files = set(domain_dir.glob("*.pdf"))` before the run; success
iff `self.downloaded_files` is non-empty (no comparison with the snapshot,
and the list is never reset between runs of the same downloader) or,
failing that, iff `current_files - existing_files` is non-empty. -/

/-- The result check of om_flyer_downloader.py's `download_om_flyer`:
first the handler-tracked list, then any pdf currently in the domain
folder.  Returns the success flag and the reported files. -/
def ofd_check_results (downloadedFiles pdfsInDir : List String) : Bool × List String :=
  if !downloadedFiles.isEmpty then (true, downloadedFiles)
  else if !pdfsInDir.isEmpty then (true, pdfsInDir)
  else (false, [])

/-- The environment of one `download_om_flyer` run of om_multi_agent.py:
whether creating the fresh browser session raises (caught by the outer
handler), how the scout run goes, whether the capability layer raises
inside `_download_single_om` (caught there, recorded in
`result["error"]`, after which the flow continues to the file checks),
the per-step download events of the main agent run, and the pdf files in
the domain folder (the pre-run snapshot and the new ones appearing during
the run). -/
structure WorkEnv where
  sessionInitRaises : Option String
  scoutRun : ScoutRun
  capRaises : Option String
  steps : List (List DownloadEventE)
  existingPdfs : List String
  newPdfs : List String
deriving DecidableEq

/-- The per-WorkItem result dictionary (the fields the claims are about). -/
structure RunResultR where
  success : Bool
  strategy_used : String
  error : Option String
  downloaded_files : List String
deriving DecidableEq

/-- `OMFlyerDownloader.download_om_flyer` of om_multi_agent.py as a state
transformer on the downloader's persistent state (`self.downloaded_files`,
`self.should_stop`, placeholder files — none of which the method resets).
Skip returns before the file checks; in the single path the driver runs,
then the handler-list check precedes the snapshot-difference check, and
the `elif` branch overwrites `self.downloaded_files` with the new files. -/
def download_om_flyer (d : OMAState) (env : WorkEnv) : OMAState × RunResultR :=
  match env.sessionInitRaises with
  | some err => (d, ⟨false, "", some err, []⟩)
  | none =>
    let count := (scout_page env.scoutRun).count
    if 0 < count then
      let ds := runDriver env.steps ⟨d, 0, 0⟩
      let sink := ds.sink
      let current := env.existingPdfs ++ env.newPdfs
      let newFiles := current.filter (fun f => !env.existingPdfs.contains f)
      if !sink.downloadedFiles.isEmpty then
        (sink, ⟨true, "single", env.capRaises, sink.downloadedFiles⟩)
      else if !newFiles.isEmpty then
        ({ sink with downloadedFiles := newFiles },
          ⟨true, "single", env.capRaises, newFiles⟩)
      else
        (sink, ⟨false, "single", some "No new files were downloaded", []⟩)
    else
      (d, ⟨false, "skip", some "No OM buttons found on the webpage", []⟩)

/-- The `for url in urls` loop of om_multi_agent.py's `main` (lines
1229-1242): sequential, one `download_om_flyer` call per URL on the same
downloader instance; the call catches its own exceptions, so every URL
yields a result. -/
def mainLoop (d : OMAState) : List WorkEnv → List RunResultR
  | [] => []
  | env :: rest =>
    let p := download_om_flyer d env
    p.2 :: mainLoop p.1 rest

/-- A fresh downloader (`OMFlyerDownloader.__init__`). -/
def downloader0 : OMAState := ⟨[], false, []⟩

/-- om_multi_agent.py's `main` (lines 1209-1247): with no URL it prints
usage and returns; otherwise it runs the loop and prints the summary.  In
both cases the function returns normally (all exceptions are caught at
line 1244) and the script never calls `sys.exit`, so the process exit code
is 0 throughout; the modelled exit code is returned together with the
collected results. -/
def mainCli (urls : List String) (envs : List WorkEnv) : Nat × List RunResultR :=
  if urls.isEmpty then (0, [])
  else (0, mainLoop downloader0 envs)

/-! ## Concrete scenarios used by the claim theorems -/

/-- A download event whose first `save_as` attempt succeeds. -/
def evOm : DownloadEventE := ⟨"om.pdf", true, true, true, false⟩

/-- A run whose scout fails (count defaults to 1, single strategy) and
whose main agent triggers one saved download at its first step. -/
def envDownload : WorkEnv := ⟨none, .openFails, none, [[evOm]], [], []⟩

/-- A run in which nothing at all happens: no step triggers any download
event and no pdf appears in the domain folder beyond the pre-run
snapshot. -/
def envNothing : WorkEnv := ⟨none, .openFails, none, [], ["a.pdf"], []⟩

/-- A run whose capability layer raises inside `_download_single_om` and
in which no artifact appears: the WorkItem fails. -/
def envCapFail : WorkEnv := ⟨none, .openFails, some "CapabilityError", [], [], []⟩

/-- A run that downloads one file: the WorkItem succeeds. -/
def envOk : WorkEnv := ⟨none, .openFails, none, [[evOm]], [], []⟩

/-- A run with no download events whose domain folder gains one pdf that
was not in the pre-run snapshot. -/
def envNewPdf : WorkEnv := ⟨none, .openFails, none, [], [], ["n.pdf"]⟩

/-- A scout history consisting of one non-numeric final answer. -/
def ambiguousHistory : List ScoutAction := [⟨some "unable to determine", []⟩]

/-! ## Helper lemmas -/

theorem totalsInvariant_update_totals (t : TokenTracker) :
    totalsInvariant t.update_totals :=
  ⟨rfl, rfl, rfl, rfl⟩

theorem totalsInvariant_applyTTOp (t : TokenTracker) (op : TTOp) :
    totalsInvariant (applyTTOp t op) := by
  cases op <;>
    simp only [applyTTOp, TokenTracker.add_scout_usage, TokenTracker.add_main_usage] <;>
    exact totalsInvariant_update_totals _

theorem totalsInvariant_applyTTOps (t : TokenTracker) (ht : totalsInvariant t)
    (ops : List TTOp) : totalsInvariant (applyTTOps t ops) := by
  induction ops generalizing t with
  | nil => exact ht
  | cons op rest ih =>
    exact ih (applyTTOp t op) (totalsInvariant_applyTTOp t op)

theorem totalsInvariant_reset : totalsInvariant TokenTracker.reset :=
  ⟨rfl, rfl, rfl, by norm_num [TokenTracker.reset]⟩

theorem donePass_eq_zero (acts : List ScoutAction)
    (h : ∀ a ∈ acts, numericFree a = true) : donePass acts = 0 := by
  induction acts with
  | nil => rfl
  | cons a rest ih =>
    have ha := h a (List.mem_cons_self a rest)
    have hrest : ∀ b ∈ rest, numericFree b = true := fun b hb => h b (List.mem_cons_of_mem a hb)
    unfold donePass
    cases hd : a.done with
    | none => exact ih hrest
    | some t =>
      have hnd : (!pyIsDigit (pyStrip t)) = true := by
        have := ha
        unfold numericFree at this
        rw [hd] at this
        exact (Bool.and_eq_true _ _).mp this |>.1
      simp only [Bool.not_eq_true'] at hnd
      simp [hnd, ih hrest]

theorem fallbackLoop_eq (acts : List ScoutAction) (c : Int)
    (h : ∀ a ∈ acts, numericFree a = true) : fallbackLoop acts c = c := by
  induction acts generalizing c with
  | nil => rfl
  | cons a rest ih =>
    have ha := h a (List.mem_cons_self a rest)
    have hrest : ∀ b ∈ rest, numericFree b = true := fun b hb => h b (List.mem_cons_of_mem a hb)
    have hk : keyPass a = none := by
      have := (Bool.and_eq_true _ _).mp ha |>.2
      exact Option.isNone_iff_eq_none.mp this
    unfold fallbackLoop
    rw [hk]
    exact ih c hrest

theorem extractCount_eq_zero (acts : List ScoutAction)
    (h : ∀ a ∈ acts, numericFree a = true) : extractCount acts = 0 := by
  unfold extractCount
  rw [donePass_eq_zero acts h]
  simp [fallbackLoop_eq acts 0 h]

theorem handle_download_shouldStop (s : OMAState) (ev : DownloadEventE) :
    (handle_download s ev).shouldStop = true := by
  unfold handle_download
  split
  · rfl
  · split <;> rfl

theorem handle_download_list_shouldStop (evs : List DownloadEventE) (s : OMAState)
    (h : evs ≠ []) : (evs.foldl handle_download s).shouldStop = true := by
  induction evs generalizing s with
  | nil => exact absurd rfl h
  | cons ev rest ih =>
    cases rest with
    | nil => exact handle_download_shouldStop s ev
    | cons ev2 rest2 =>
      exact ih (handle_download s ev) (by simp)

theorem runDriver_stopped (l : List (List DownloadEventE)) (s : DriverState)
    (h : monitorStops s = true) : runDriver l s = s := by
  cases l with
  | nil => rfl
  | cons evs rest => simp [runDriver, h]

theorem runDriver_append (l1 l2 : List (List DownloadEventE)) (s : DriverState) :
    runDriver (l1 ++ l2) s = runDriver l2 (runDriver l1 s) := by
  induction l1 generalizing s with
  | nil => rfl
  | cons evs rest ih =>
    by_cases h : monitorStops s = true
    · simp [runDriver, h, runDriver_stopped l2 s h]
    · simp only [Bool.not_eq_true] at h
      simp [runDriver, h, ih]

theorem runDriver_event_stops (l : List (List DownloadEventE))
    (evs : List DownloadEventE) (s : DriverState) (h : evs ≠ []) :
    monitorStops (runDriver (l ++ [evs]) s) = true := by
  induction l generalizing s with
  | nil =>
    by_cases hs : monitorStops s = true
    · rw [List.nil_append, runDriver_stopped [evs] s hs]
      exact hs
    · simp only [Bool.not_eq_true] at hs
      simp only [List.nil_append, runDriver, hs, Bool.false_eq_true, if_false]
      simp [monitorStops, execStep, handle_download_list_shouldStop evs s.sink h]
  | cons e rest ih =>
    by_cases hs : monitorStops s = true
    · rw [runDriver_stopped _ s hs]
      exact hs
    · simp only [Bool.not_eq_true] at hs
      simp only [List.cons_append, runDriver, hs, Bool.false_eq_true, if_false]
      exact ih (execStep e s)

theorem runDriver_plannerCalls_le (l : List (List DownloadEventE)) (s : DriverState) :
    (runDriver l s).plannerCalls ≤ s.plannerCalls + l.length := by
  induction l generalizing s with
  | nil => simp [runDriver]
  | cons evs rest ih =>
    by_cases h : monitorStops s = true
    · simp [runDriver, h]
    · simp only [Bool.not_eq_true] at h
      simp only [runDriver, h, if_false]
      calc (runDriver rest (execStep evs s)).plannerCalls
          ≤ (execStep evs s).plannerCalls + rest.length := ih (execStep evs s)
        _ = s.plannerCalls + (evs :: rest).length := by simp [execStep]; omega

theorem ofd_handle_download_mem (s : OFDSink) (f : String) (t : Nat) (hf : ¬f = "") :
    cleanFilename f ∈ (ofd_handle_download s f t true).downloaded_filenames := by
  unfold ofd_handle_download
  simp only [hf, if_false]
  by_cases h : cleanFilename f ∈ s.downloaded_filenames
  · simp [h]
  · simp [h]

theorem ofd_handle_download_dup (s : OFDSink) (f : String) (t : Nat) (ok : Bool)
    (hf : ¬f = "") (hm : cleanFilename f ∈ s.downloaded_filenames) :
    ofd_handle_download s f t ok = s := by
  unfold ofd_handle_download
  simp [hf, hm]

theorem mainLoop_length (envs : List WorkEnv) (d : OMAState) :
    (mainLoop d envs).length = envs.length := by
  induction envs generalizing d with
  | nil => rfl
  | cons env rest ih => simp [mainLoop, ih]

theorem filter_not_contains_nonempty (ex cur : List String) :
    ((cur.filter (fun f => !ex.contains f)).isEmpty = false) ↔ ∃ f ∈ cur, f ∉ ex := by
  constructor
  · intro h
    have hne : cur.filter (fun f => !ex.contains f) ≠ [] := by
      intro hnil
      rw [hnil] at h
      exact absurd h (by simp)
    obtain ⟨f, hf⟩ := List.exists_mem_of_ne_nil _ hne
    obtain ⟨hf1, hf2⟩ := List.mem_filter.mp hf
    exact ⟨f, hf1, by simpa using hf2⟩
  · rintro ⟨f, hf1, hf2⟩
    have hm : f ∈ cur.filter (fun f => !ex.contains f) :=
      List.mem_filter.mpr ⟨hf1, by simpa using hf2⟩
    cases hE : cur.filter (fun f => !ex.contains f) with
    | nil => rw [hE] at hm; cases hm
    | cons a l => rfl

/-! ## The claims -/

/-- C1: once the completion detector has observed a completed download in
some step (a non-empty batch of download events was delivered to the
handler), the driver halts at the following step boundary: the run is
identical to the run truncated right after that step, so no further
planner calls are issued and no further steps are executed, regardless of
the remaining step budget; in particular the total number of planner calls
is bounded by the steps up to and including the one whose download was
observed. -/
theorem claim1_driver_halts_on_download
    (pre post : List (List DownloadEventE)) (evs : List DownloadEventE)
    (s : DriverState) (h : evs ≠ []) :
    runDriver (pre ++ evs :: post) s = runDriver (pre ++ [evs]) s ∧
    (runDriver (pre ++ evs :: post) s).plannerCalls ≤ s.plannerCalls + (pre.length + 1) := by
  have key : runDriver (pre ++ evs :: post) s = runDriver (pre ++ [evs]) s := by
    have hsplit : pre ++ evs :: post = (pre ++ [evs]) ++ post := by simp
    rw [hsplit, runDriver_append]
    exact runDriver_stopped post _ (runDriver_event_stops pre evs s h)
  refine ⟨key, ?_⟩
  rw [key]
  have hle := runDriver_plannerCalls_le (pre ++ [evs]) s
  simpa using hle

/-- Witness for C1: a concrete run with a download at the first step and
two steps of remaining budget equals the run truncated after the first
step. -/
theorem claim1_witness :
    ([evOm] : List DownloadEventE) ≠ [] ∧
    runDriver ([] ++ [evOm] :: [[], []]) ⟨downloader0, 0, 0⟩
      = runDriver ([] ++ [[evOm]]) ⟨downloader0, 0, 0⟩ :=
  ⟨by decide,
   (claim1_driver_halts_on_download [] [[], []] [evOm] ⟨downloader0, 0, 0⟩ (by decide)).1⟩

/-- C2 counterexample: the claim says a scouted count greater than 1
yields `Batch(count)`, but `download_om_flyer` maps the count 2 to the
single strategy (`if om_button_count > 0` → `"single"`); no code path
produces a batch strategy. -/
theorem claim2_counterexample :
    selectStrategy 2 = Strategy.single ∧ Strategy.single ≠ Strategy.batch 2 :=
  ⟨rfl, by decide⟩

/-- C2 amended: the selector is a deterministic pure function of the
count, but the table is: count ≤ 0 yields Skip and every count ≥ 1 yields
Single; Batch is never selected for any count. -/
theorem claim2_strategy_amended (c : Int) :
    (selectStrategy c = Strategy.skip ↔ c ≤ 0) ∧
    (selectStrategy c = Strategy.single ↔ 0 < c) ∧
    ∀ n : Int, selectStrategy c ≠ Strategy.batch n := by
  unfold selectStrategy
  by_cases h : 0 < c
  · rw [if_pos h]
    exact ⟨⟨fun hx => Strategy.noConfusion hx, fun hx => absurd h (Int.not_lt.mpr hx)⟩,
           ⟨fun _ => h, fun _ => rfl⟩, fun n hx => Strategy.noConfusion hx⟩
  · rw [if_neg h]
    exact ⟨⟨fun _ => Int.not_lt.mp h, fun _ => rfl⟩,
           ⟨fun hx => Strategy.noConfusion hx, fun hx => absurd hx h⟩,
           fun n hx => Strategy.noConfusion hx⟩

/-- Witness for C2: the amended table evaluated at the counts 0 and 3. -/
theorem claim2_witness :
    selectStrategy 0 = Strategy.skip ∧ selectStrategy 3 = Strategy.single :=
  ⟨(claim2_strategy_amended 0).1.mpr (by norm_num),
   (claim2_strategy_amended 3).2.1.mpr (by norm_num)⟩

/-- C3 counterexample: a scout run that completes with a non-numeric
final answer resolves to the count 0, and the caller then selects Skip —
not the claimed `unknown`-as-1/Single. -/
theorem claim3_counterexample :
    (scout_page (.completes ambiguousHistory)).count = 0 ∧
    selectStrategy (scout_page (.completes ambiguousHistory)).count = Strategy.skip ∧
    Strategy.skip ≠ Strategy.single :=
  ⟨by decide, by decide, by decide⟩

/-- C3 amended: a scout run that completes but whose history carries no
numeric signal (no digit-only `done` text, no numeric fallback field)
resolves to the count 0 and the caller selects Skip; only when the
browser context or planner fails outright (an exception reaching
`scout_page`'s outer handler) does the scout return 1 and the Single
strategy get attempted. -/
theorem claim3_scout_default_amended (acts : List ScoutAction)
    (h : ∀ a ∈ acts, numericFree a = true) :
    (scout_page (.completes acts)).count = 0 ∧
    selectStrategy (scout_page (.completes acts)).count = Strategy.skip ∧
    (scout_page .openFails).count = 1 ∧
    (scout_page .runRaises).count = 1 ∧
    selectStrategy (scout_page .openFails).count = Strategy.single := by
  have h0 : (scout_page (.completes acts)).count = 0 := extractCount_eq_zero acts h
  refine ⟨h0, ?_, rfl, rfl, rfl⟩
  rw [h0]
  rfl

/-- Witness for C3: the amended statement evaluated on the concrete
ambiguous history. -/
theorem claim3_witness :
    (∀ a ∈ ambiguousHistory, numericFree a = true) ∧
    (scout_page (.completes ambiguousHistory)).count = 0 :=
  ⟨by decide, (claim3_scout_default_amended ambiguousHistory (by decide)).1⟩

/-- C4 counterexample.  First part: in om_multi_agent.py the
handler-tracked `self.downloaded_files` list is never reset between runs,
so after a first WorkItem that downloaded a file, a second WorkItem in
which nothing at all appears (`envNothing`: no download events, no new
pdf beyond the snapshot) is still reported as a success.  Second part: in
om_flyer_downloader.py the fallback check globs every pdf in the domain
folder, so with an empty handler list a pdf that existed before the run
("old.pdf") makes the run a success and is reported as its artifact. -/
theorem claim4_counterexample :
    (mainLoop downloader0 [envDownload, envNothing]).map (fun r => r.success)
      = [true, true] ∧
    envNothing.steps = [] ∧ envNothing.newPdfs = [] ∧
    (ofd_check_results [] ["old.pdf"]).1 = true ∧
    (ofd_check_results [] ["old.pdf"]).2 = ["old.pdf"] :=
  ⟨by decide, rfl, rfl, rfl, rfl⟩

/-- C4 amended: in om_multi_agent.py, when the handler-tracked file list
is empty at the end of the run, success is reported exactly when a pdf
absent from the pre-run snapshot appeared in the domain folder; a
non-empty handler list however yields success without any comparison with
the snapshot (and the list survives from one run to the next), and in
om_flyer_downloader.py every pdf in the domain folder, including
pre-existing ones, counts toward success when the handler recorded
nothing. -/
theorem claim4_success_amended (env : WorkEnv) (d : OMAState)
    (hs : env.sessionInitRaises = none)
    (hc : 0 < (scout_page env.scoutRun).count)
    (hd : (runDriver env.steps ⟨d, 0, 0⟩).sink.downloadedFiles = []) :
    ((download_om_flyer d env).2.success = true
      ↔ ∃ f ∈ env.existingPdfs ++ env.newPdfs, f ∉ env.existingPdfs) := by
  unfold download_om_flyer
  rw [hs]
  simp only [hc, if_true, hd, List.isEmpty_nil, Bool.not_true, Bool.false_eq_true,
    if_false]
  by_cases hnew : ((env.existingPdfs ++ env.newPdfs).filter
      (fun f => !env.existingPdfs.contains f)).isEmpty = false
  · simp only [hnew, Bool.not_false, if_true]
    simpa using (filter_not_contains_nonempty env.existingPdfs
      (env.existingPdfs ++ env.newPdfs)).mp hnew
  · have hnew' : ((env.existingPdfs ++ env.newPdfs).filter
        (fun f => !env.existingPdfs.contains f)).isEmpty = true := by
      revert hnew
      cases ((env.existingPdfs ++ env.newPdfs).filter
        (fun f => !env.existingPdfs.contains f)).isEmpty <;> simp
    simp only [hnew', Bool.not_true, Bool.false_eq_true, if_false]
    constructor
    · intro hx
      cases hx
    · intro hex
      exact absurd ((filter_not_contains_nonempty env.existingPdfs
        (env.existingPdfs ++ env.newPdfs)).mpr hex) (by rw [hnew']; simp)

/-- Witness for C4: a run in which one pdf appears that was not in the
snapshot is a success. -/
theorem claim4_witness :
    (download_om_flyer downloader0 envNewPdf).2.success = true :=
  (claim4_success_amended envNewPdf downloader0 rfl (by decide) rfl).mpr
    ⟨"n.pdf", by decide, by decide⟩

/-- C5 counterexample: the download handler of om_multi_agent.py has no
deduplication at all — recording the same suggested filename twice
appends two entries to `self.downloaded_files`, so the observed count
changes after the first recording. -/
theorem claim5_counterexample :
    (handle_download (handle_download downloader0 evOm) evOm).downloadedFiles
      = ["om.pdf", "om.pdf"] ∧
    (["om.pdf", "om.pdf"] : List String).length ≠ (["om.pdf"] : List String).length :=
  ⟨by decide, by decide⟩

/-- C5 amended: in om_flyer_downloader.py's handler the deduplication
holds as described — once a suggested filename has been recorded (saved
successfully), recording it again is a no-op on the whole sink state,
whatever the second save attempt would have done; but in
om_multi_agent.py's handler there is no deduplication key and a repeated
event appends a second entry. -/
theorem claim5_idempotent_amended (s : OFDSink) (f : String) (t1 t2 : Nat) (ok2 : Bool)
    (hf : ¬f = "") :
    ofd_handle_download (ofd_handle_download s f t1 true) f t2 ok2
      = ofd_handle_download s f t1 true :=
  ofd_handle_download_dup (ofd_handle_download s f t1 true) f t2 ok2 hf
    (ofd_handle_download_mem s f t1 hf)

/-- Witness for C5: the concrete duplicate recording of "om.pdf" is a
no-op. -/
theorem claim5_witness :
    ofd_handle_download (ofd_handle_download ⟨[], []⟩ "om.pdf" 0 true) "om.pdf" 1 true
      = ofd_handle_download ⟨[], []⟩ "om.pdf" 0 true :=
  claim5_idempotent_amended ⟨[], []⟩ "om.pdf" 0 1 true (by decide)

/-- C6 counterexample: when `scout_agent.run` raises after the scout's
browser session was created, the outer handler at line 558 returns 1
without ever reaching the `close` at lines 550-553 — the isolated context
is opened but not torn down. -/
theorem claim6_counterexample :
    (scout_page .runRaises).contextOpened = true ∧
    (scout_page .runRaises).contextClosed = false :=
  ⟨rfl, rfl⟩

/-- C6 amended: the scout's isolated context is torn down before the
scout returns on the success path and on the extraction-error path (the
extraction block catches its own exceptions before the close runs), and
no context exists when opening it fails; but when the planner/agent run
raises after the context was opened, the scout returns without closing
it. -/
theorem claim6_teardown_amended (acts : List ScoutAction) :
    (scout_page (.completes acts)).contextClosed = true ∧
    (scout_page .extractionRaises).contextClosed = true ∧
    (scout_page .openFails).contextOpened = false ∧
    (scout_page .runRaises).contextOpened = true ∧
    (scout_page .runRaises).contextClosed = false :=
  ⟨rfl, rfl, rfl, rfl, rfl⟩

/-- C7: the batch loop of `main` calls `download_om_flyer` once per URL
on the same downloader, and that call absorbs its own failures (the
capability layer's exceptions are caught inside `_download_single_om`,
everything else by `download_om_flyer`'s outer handler), so every URL of
the batch yields its own result; concretely, a batch whose first WorkItem
fails with a capability error still runs the second to completion and the
second succeeds. -/
theorem claim7_batch_isolation :
    (∀ (d : OMAState) (envs : List WorkEnv), (mainLoop d envs).length = envs.length) ∧
    (mainLoop downloader0 [envCapFail, envOk]).map (fun r => r.success) = [false, true] :=
  ⟨fun d envs => mainLoop_length envs d, by decide⟩

/-- C8 counterexample: with an empty URL list, `main` prints the usage
text and returns normally; the script never calls `sys.exit`, so the
process exit code is 0, not the claimed non-zero value. -/
theorem claim8_counterexample : (mainCli [] []).1 = 0 :=
  rfl

/-- C8 amended: the CLI exits with code 0 when at least one WorkItem
succeeds — and in fact in every case, including an empty URL list, since
no code path sets a non-zero exit code. -/
theorem claim8_exit_code_amended (urls : List String) (envs : List WorkEnv) :
    (mainCli urls envs).1 = 0 := by
  unfold mainCli
  split <;> rfl

/-- C9: the download handler of om_multi_agent.py sets `should_stop` in
every case — after a successful save, after all three save attempts fail
(in which case the text placeholder is written at the artifact path and
nothing is appended to the file list), and when the handler body itself
raises. -/
theorem claim9_handler_stop_flag (s : OMAState) (ev : DownloadEventE) :
    (handle_download s ev).shouldStop = true ∧
    (ev.handlerRaises = false → (ev.save1 || ev.save2 || ev.save3) = false →
      (handle_download s ev).placeholders = s.placeholders ++ [ev.suggested] ∧
      (handle_download s ev).downloadedFiles = s.downloadedFiles) := by
  refine ⟨handle_download_shouldStop s ev, fun h1 h2 => ?_⟩
  unfold handle_download
  simp [h1, h2]

/-- Witness for C9: a concrete event whose three save attempts all fail
still sets the stop flag and writes the placeholder. -/
theorem claim9_witness :
    (handle_download downloader0 ⟨"om.pdf", false, false, false, false⟩).shouldStop = true ∧
    (handle_download downloader0 ⟨"om.pdf", false, false, false, false⟩).placeholders
      = downloader0.placeholders ++ ["om.pdf"] :=
  ⟨(claim9_handler_stop_flag downloader0 ⟨"om.pdf", false, false, false, false⟩).1,
   ((claim9_handler_stop_flag downloader0 ⟨"om.pdf", false, false, false, false⟩).2
      rfl rfl).1⟩

/-- C10: after any sequence of `add_scout_usage`/`add_main_usage` calls
starting from a reset tracker, the totals invariant holds: each kind of
total token count is the sum of the scout and main counts, and the total
cost is the sum of the scout and main costs. -/
theorem claim10_token_totals (ops : List TTOp) :
    totalsInvariant (applyTTOps TokenTracker.reset ops) :=
  totalsInvariant_applyTTOps TokenTracker.reset totalsInvariant_reset ops

end OMX
